import Mathlib

/-!
Shallow embedding of the `mirakl-lib` request-orchestration layer
(`src/mirakl_lib/client.py`, `src/mirakl_lib/shipping.py`,
`src/mirakl_lib/offer.py`, `src/mirakl_lib/public_input.py`) and proofs
about it.  Python machine behaviour is modelled exactly: raised
exceptions become `Except` errors, `None` becomes `Option.none`,
floats appearing in prices are modelled as exact rationals, and
`time.sleep` calls are recorded as a list of slept durations.
-/

namespace MiraklLib

/-- Python exceptions that the modelled code can raise.
`httpError` carries the response status code and the optional
`Retry-After` header value (`requests.exceptions.HTTPError`);
`exception` is a plain `Exception(msg)`; `valueError` is `ValueError(msg)`;
`typeError` models the `TypeError` from `re.search(pattern, None)`;
`carrierNotFound` is `shipping.CarrierNotFound`; `notImplemented` is
`NotImplementedError`. -/
inductive PyExc where
  | httpError (status : Nat) (retryAfter : Option Nat)
  | exception (msg : String)
  | valueError (msg : String)
  | typeError
  | carrierNotFound
  | notImplemented
deriving DecidableEq, Repr

/-- `shipping.ShippingCarrier` enum. -/
inductive ShippingCarrier where
  | UPS
  | USPS
  | FEDEX
  | DHL
  | CUSTOM
deriving DecidableEq, Repr

/-- The `.value` string of each `ShippingCarrier` member. -/
def ShippingCarrier.value : ShippingCarrier → String
  | .UPS => "ups"
  | .USPS => "usps"
  | .FEDEX => "fedex"
  | .DHL => "dhl"
  | .CUSTOM => "custom"

/-- `client.ShippingConfirmationResult` enum. -/
inductive ShippingConfirmationResult where
  | CONFIRMED
  | PREVIOUSLY_CONFIRMED
deriving DecidableEq, Repr

/-- The `while retry_count < max_retries` loop of `client.retry_wrapper`
(client.py lines 68-89), with `max_retries = 10`.  `op k` is the outcome
of the `k`-th invocation of the wrapped `request_func` (the attempt made
when `retry_count = k`).  The first component of the result records the
durations passed to `time.sleep`; the second is the wrapper's outcome.
On success the wrapped function's return value is discarded (`request_func`
is called for effect and the loop `break`s), so the wrapper itself returns
Python `None`, modelled as `.ok none`.  A 429 `HTTPError` sleeps for the
`Retry-After` header value (default 2) and retries; any other exception
propagates; when `retry_count` reaches 10,
`Exception("Max retries exceeded")` is raised. -/
def retryWrapperLoop {α : Type} (op : Nat → Except PyExc α) (retry_count : Nat) :
    List Nat × Except PyExc (Option α) :=
  if h : retry_count < 10 then
    match op retry_count with
    | .ok _ => ([], .ok none)
    | .error (.httpError status retryAfter) =>
        if status = 429 then
          let d := retryAfter.getD 2
          let rest := retryWrapperLoop op (retry_count + 1)
          (d :: rest.1, rest.2)
        else ([], .error (.httpError status retryAfter))
    | .error e => ([], .error e)
  else ([], .error (.exception "Max retries exceeded"))
termination_by 10 - retry_count
decreasing_by omega

/-- `client.retry_wrapper` applied to an operation: runs the retry loop
starting from `retry_count = 0`. -/
def retry_wrapper {α : Type} (op : Nat → Except PyExc α) :
    List Nat × Except PyExc (Option α) :=
  retryWrapperLoop op 0

/-- Whether the first character list starts the second. -/
def charsLeadWith : List Char → List Char → Bool
  | [], _ => true
  | _ :: _, [] => false
  | a :: p, b :: l => a = b && charsLeadWith p l

/-- Python's `s.startswith(t)`: the characters of `t` start those of
`s`. -/
def strStartsWith (s t : String) : Bool := charsLeadWith t.data s.data

/-- `client.determine_carrier` (client.py lines 59-65): tracking numbers
starting with `"1Z"` resolve to UPS, everything else raises
`CarrierNotFound`; the second argument is unused. -/
def determine_carrier (tracking_number : String)
    (marketpace_order_number : Option String := none) :
    Except PyExc ShippingCarrier :=
  if strStartsWith tracking_number "1Z" then
    .ok ShippingCarrier.UPS
  else
    .error .carrierNotFound

/-- `shipping.OR23RequestBody`: a tracking submission body.  Optional
fields are `None` by default in the pydantic model. -/
structure OR23RequestBody where
  carrier_code : Option String := none
  carrier_name : Option String := none
  carrier_url : Option String := none
  tracking_number : String
deriving DecidableEq, Repr

/-- `OR23RequestBody.validate_for_mirakl` (shipping.py lines 39-52),
parameterised by `url_ok`, the external `validators.url` predicate.
The guard reproduces Python's operator precedence exactly:
`carrier_code is None and carrier_name is None or carrier_url is None`
parses as `(code is None ∧ name is None) ∨ url is None`. -/
def validate_for_mirakl (url_ok : String → Bool) (b : OR23RequestBody) :
    Except PyExc OR23RequestBody :=
  if (b.carrier_code = none ∧ b.carrier_name = none) ∨ b.carrier_url = none then
    .error (.valueError
      "If carrier code is not provided, the BOTH carrier name and carrier url must be provided")
  else if b.carrier_code = none then
    if ¬ url_ok (b.carrier_url.getD "") then
      .error (.valueError "Invalid carrier URL")
    else
      .ok b
  else
    .ok b

/-- One page returned by `MiraklClient.get_offers`: the deserialised
`OF21Response` with its list of offers and the server-reported
`total_count`. -/
structure OF21Page (α : Type) where
  offers : List α
  total_count : Nat
deriving DecidableEq, Repr

/-- The `while current_offset < total_count` loop of
`MiraklClient.get_all_offers` (client.py lines 245-251).  `fetch o m` is
the page the server returns for `OF21QueryParams(offset=o, max=m)`.  The
first component records every `(offset, max)` request issued by the
loop, the second accumulates the offers fetched by the loop. -/
def getAllOffersLoop {α : Type} (fetch : Nat → Nat → OF21Page α)
    (total_count current_offset : Nat) : List (Nat × Nat) × List α :=
  if h : current_offset < total_count then
    let next_offset := current_offset + 100
    let next_page := fetch next_offset 100
    let rest := getAllOffersLoop fetch total_count next_offset
    ((next_offset, 100) :: rest.1, next_page.offers ++ rest.2)
  else ([], [])
termination_by total_count - current_offset
decreasing_by omega

/-- `MiraklClient.get_all_offers` (client.py lines 234-252): fetches the
first page at offset 0 with the fixed `limit = 100`, reads `total_count`
from it, then runs the offset loop.  Returns the full request trace and
the accumulated offers. -/
def get_all_offers {α : Type} (fetch : Nat → Nat → OF21Page α) :
    List (Nat × Nat) × List α :=
  let limit := 100
  let first_page := fetch 0 limit
  let total_count := first_page.total_count
  let rest := getAllOffersLoop fetch total_count 0
  ((0, limit) :: rest.1, first_page.offers ++ rest.2)

/-- The server's reply to the ship-confirmation `PUT` in
`put_ship_confirmation`: its status code, optional `Retry-After` header,
and the optional `"message"` field of its JSON body
(`json.loads(response.content).get("message")`).  Following `requests`,
`response.ok` is `status_code < 400`. -/
structure ShipResponse where
  status_code : Nat
  retryAfter : Option Nat := none
  message : Option String := none
deriving DecidableEq, Repr

/-- `requests.Response.ok`: true when the status code is below 400. -/
def ShipResponse.ok (r : ShipResponse) : Bool := r.status_code < 400

/-- Whether the first character list occurs inside the second. -/
def charsContain (p : List Char) : List Char → Bool
  | [] => charsLeadWith p []
  | b :: l => charsLeadWith p (b :: l) || charsContain p l

/-- Whether `re.search(pat, s)` finds a match, for the literal pattern
`r"Current status is"` (no metacharacters): a substring test. -/
def patternFound (pat s : String) : Bool := charsContain pat.data s.data

/-- The body of `MiraklClient.put_ship_confirmation` (client.py lines
339-358), before the `retry_wrapper` decorator is applied: a 2xx/3xx
response yields `CONFIRMED`; otherwise the body's `message` is searched
for `"Current status is"` (a missing message makes `re.search` raise
`TypeError`), a match yields `PREVIOUSLY_CONFIRMED`, and anything else
re-raises via `raise_for_status`. -/
def put_ship_confirmation_body (resp : ShipResponse) :
    Except PyExc ShippingConfirmationResult :=
  if resp.ok then
    .ok ShippingConfirmationResult.CONFIRMED
  else
    match resp.message with
    | none => .error .typeError
    | some m =>
        if patternFound "Current status is" m then
          .ok ShippingConfirmationResult.PREVIOUSLY_CONFIRMED
        else
          .error (.httpError resp.status_code resp.retryAfter)

/-- `MiraklClient.put_ship_confirmation` as callers see it: the body
wrapped by the `retry_wrapper` decorator (client.py line 338).
`responses k` is the server's reply to the `k`-th attempt. -/
def put_ship_confirmation (responses : Nat → ShipResponse) :
    List Nat × Except PyExc (Option ShippingConfirmationResult) :=
  retry_wrapper (fun k => put_ship_confirmation_body (responses k))

/-- Python's built-in `round` to an integer on an exact value: round
half to even. -/
def pyRound (x : ℚ) : ℤ :=
  let f := ⌊x⌋
  let r := x - f
  if r < 1 / 2 then f
  else if 1 / 2 < r then f + 1
  else if f % 2 = 0 then f else f + 1

/-- Python's `round(x, 2)`: round to 2 fractional digits. -/
def pyRound2 (x : ℚ) : ℚ := (pyRound (x * 100) : ℚ) / 100

/-- Python's `int()` conversion: truncation toward zero. -/
def intTrunc (x : ℚ) : ℤ := if 0 ≤ x then ⌊x⌋ else ⌈x⌉

/-- `client.round_up_to_nearest_nine` (client.py lines 31-37), the price
normalizer, with the float arithmetic modelled exactly over ℚ:
round to 2 digits, split off the integer part, recover the cents
(`mantissa`), add `abs((mantissa % 10) - 9) * 0.01`. -/
def round_up_to_nearest_nine (number : ℚ) : ℚ :=
  let number := pyRound2 number
  let base := intTrunc number
  let mantissa := pyRound ((number - base) * 100)
  let dist_to_next_nine : ℚ := (|mantissa % 10 - 9| : ℤ) * (1 / 100)
  number + dist_to_next_nine

/-- One entry of `public_input.OfferUpdateInput`: `NotRequired` keys are
modelled as `Option` (`none` = key absent). -/
structure OfferUpdateInput where
  offer_sku : String
  product_id : String
  base_price : ℚ
  discount_price : Option ℚ := none
  discount_start_date : Option String := none
  discount_end_date : Option String := none
  quantity : Int
deriving DecidableEq, Repr

/-- `offer.OF24Request.Offer.Discount` (the fields `update_offers`
sets; all default to `None`). -/
structure OF24Discount where
  price : Option ℚ := none
  start_date : Option String := none
  end_date : Option String := none
deriving DecidableEq, Repr

/-- `offer.OF24Request.Offer`, restricted to the fields `update_offers`
populates. -/
structure OF24Offer where
  price : ℚ
  shop_sku : String
  product_id : String
  quantity : Int
  discount : Option OF24Discount := none
deriving DecidableEq, Repr

/-- The per-input request construction in `MiraklClient.update_offers`
(client.py lines 198-221): the base price goes through
`round_up_to_nearest_nine`; when the `discount_price` key is present a
`Discount` is attached carrying that price unchanged, with
`start_date`/`end_date` set only when the corresponding keys are
non-null. -/
def buildOfferRequest (offer_input : OfferUpdateInput) : OF24Offer :=
  let base : OF24Offer :=
    { price := round_up_to_nearest_nine offer_input.base_price
      shop_sku := offer_input.offer_sku
      product_id := offer_input.product_id
      quantity := offer_input.quantity }
  match offer_input.discount_price with
  | none => base
  | some dp =>
      { base with
          discount := some
            { price := some dp
              start_date := offer_input.discount_start_date
              end_date := offer_input.discount_end_date } }

/-- Modelled from the spec: `OF24Request.validate_all_offers`, called at
client.py line 223, is code of this repository that is not under `src/`
(`offer.py` as shipped here does not define it).  The spec describes no
validation effect for `update_offers` — the wire request is built 1:1
from the inputs and submitted all-or-nothing — so the call returns the
request unchanged. -/
def validate_all_offers (offers : List OF24Offer) : List OF24Offer := offers

/-- The wire request `MiraklClient.update_offers` (client.py lines
192-232) builds from its input list: one `OF24Request.Offer` per input,
in order, passed through `validate_all_offers`. -/
def update_offers_request (input : List OfferUpdateInput) : List OF24Offer :=
  validate_all_offers (input.map buildOfferRequest)

/-- The value `update_offers` returns, from the server's response body:
`response.json().get("import_id", 0)` (client.py line 232). -/
def update_offers_result (import_id : Option Int) : Int :=
  import_id.getD 0

/-- The fields of `client.MiraklClient` that the tracking operations
read: the base URL, the carrier-code configuration mapping
(`carrier_configurations`, keyed by carrier), and the two pluggable
functions.  The URL generator and the carrier resolver may raise, so
they return `Except`. -/
structure MiraklClient where
  base_url : String
  carrier_configurations : ShippingCarrier → Option String
  tracking_url_generation_func : ShippingCarrier → String → Except PyExc String
  carrier_determination_func : String → Option String → Except PyExc ShippingCarrier

/-- `client.generate_custom_tracking_url` (client.py lines 45-56): only
DHL has a URL; every other carrier raises `NotImplementedError`. -/
def generate_custom_tracking_url (carrier : ShippingCarrier)
    (tracking_number : String) : Except PyExc String :=
  match carrier with
  | .DHL =>
      .ok ("https://www.dhl.com/us-en/home/tracking.html?tracking-id=" ++ tracking_number)
  | _ => .error .notImplemented

/-- The payload construction of `MiraklClient.put_tracking` (client.py
lines 310-329): the carrier-code shape when the carrier has a configured
mapping, otherwise the name + generated-URL shape, then
`validate_for_mirakl` (with `url_ok` standing for the external
`validators.url`). -/
def put_tracking_payload (url_ok : String → Bool) (client : MiraklClient)
    (tracking_number : String) (carrier : ShippingCarrier) :
    Except PyExc OR23RequestBody :=
  match client.carrier_configurations carrier with
  | some marketplace_carrier_code =>
      validate_for_mirakl url_ok
        { carrier_code := some marketplace_carrier_code
          tracking_number := tracking_number }
  | none =>
      match client.tracking_url_generation_func carrier tracking_number with
      | .error e => .error e
      | .ok carrier_url =>
          validate_for_mirakl url_ok
            { carrier_name := some carrier.value
              carrier_url := some carrier_url
              tracking_number := tracking_number }

/-- The request-construction part of `MiraklClient.put_tracking`
(client.py lines 294-333), up to the outbound `PUT`: resolve the carrier
via `carrier_determination_func(tracking_number, tracking_number)` when
none is supplied (line 308), build and validate the payload via
`put_tracking_payload`, and return the request URL together with the
payload; any raised exception propagates. -/
def put_tracking_request (url_ok : String → Bool) (client : MiraklClient)
    (order_id : String) (tracking_number : String)
    (carrier? : Option ShippingCarrier) :
    Except PyExc (String × OR23RequestBody) :=
  let url := client.base_url ++ "/api/orders/" ++ order_id ++ "/tracking"
  let carrier_result := match carrier? with
    | some c => Except.ok c
    | none => client.carrier_determination_func tracking_number (some tracking_number)
  match carrier_result with
  | .error e => .error e
  | .ok carrier =>
      match put_tracking_payload url_ok client tracking_number carrier with
      | .error e => .error e
      | .ok request_payload => .ok (url, request_payload)

/-! ## Helper lemmas -/

/-- `pyRound` is the identity on integers. -/
theorem pyRound_intCast (n : ℤ) : pyRound (n : ℚ) = n := by
  unfold pyRound
  norm_num

/-- Evaluation of the price normalizer on an exact non-negative number
of cents: `round_up_to_nearest_nine (n/100) = (n + (9 - n % 10))/100`. -/
theorem round_up_on_cents (n : ℤ) (hn : 0 ≤ n) :
    round_up_to_nearest_nine ((n : ℚ) / 100) = ((n + (9 - n % 10) : ℤ) : ℚ) / 100 := by
  have hmul : ((n : ℚ) / 100) * 100 = (n : ℚ) := by field_simp
  have hx0 : (0 : ℚ) ≤ (n : ℚ) / 100 := by positivity
  have hfloor : ⌊(n : ℚ) / 100⌋ = n / 100 := by
    have := Rat.floor_intCast_div_natCast n 100
    simpa using this
  have hr_def : n % 100 = n - 100 * (n / 100) := by omega
  simp only [round_up_to_nearest_nine, pyRound2, intTrunc]
  rw [hmul, pyRound_intCast, if_pos hx0, hfloor]
  have hsub : ((n : ℚ) / 100 - ((n / 100 : ℤ) : ℚ)) * 100 = ((n % 100 : ℤ) : ℚ) := by
    push_cast [hr_def]
    ring
  rw [hsub, pyRound_intCast]
  have hmod : n % 100 % 10 = n % 10 := by omega
  rw [hmod]
  have habs : |n % 10 - 9| = 9 - n % 10 := by
    rw [abs_of_nonpos (by omega)]
    ring
  rw [habs]
  push_cast
  ring

/-- A non-negative rational whose value in cents is the integer `n`
equals `n/100`, with `n` non-negative. -/
theorem cents_repr {x : ℚ} {n : ℤ} (hx : 0 ≤ x) (hxn : x * 100 = (n : ℚ)) :
    x = (n : ℚ) / 100 ∧ 0 ≤ n := by
  constructor
  · field_simp
    linarith [hxn]
  · have : (0 : ℚ) ≤ (n : ℚ) := by rw [← hxn]; positivity
    exact_mod_cast this

/-- One iteration of the retry loop on a success: the loop breaks and
the wrapper returns `None`. -/
theorem retryWrapperLoop_ok {α : Type} {op : Nat → Except PyExc α} {c : Nat} {v : α}
    (hc : c < 10) (hop : op c = .ok v) :
    retryWrapperLoop op c = ([], .ok none) := by
  rw [retryWrapperLoop]
  simp [hc, hop]

/-- One iteration of the retry loop on a 429: sleep `Retry-After`
(default 2) and continue with the counter incremented. -/
theorem retryWrapperLoop_429 {α : Type} {op : Nat → Except PyExc α} {c : Nat}
    {r : Option Nat} (hc : c < 10) (hop : op c = .error (.httpError 429 r)) :
    retryWrapperLoop op c =
      (r.getD 2 :: (retryWrapperLoop op (c + 1)).1, (retryWrapperLoop op (c + 1)).2) := by
  rw [retryWrapperLoop]
  simp [hc, hop]

/-- One iteration of the retry loop on a non-429 HTTP error: re-raised
unchanged. -/
theorem retryWrapperLoop_non429 {α : Type} {op : Nat → Except PyExc α} {c s : Nat}
    {r : Option Nat} (hc : c < 10) (hop : op c = .error (.httpError s r)) (hs : s ≠ 429) :
    retryWrapperLoop op c = ([], .error (.httpError s r)) := by
  rw [retryWrapperLoop]
  simp [hc, hop, hs]

/-- When the counter has reached 10 the loop exits and
`Exception("Max retries exceeded")` is raised. -/
theorem retryWrapperLoop_exhausted {α : Type} {op : Nat → Except PyExc α} {c : Nat}
    (hc : ¬ c < 10) :
    retryWrapperLoop op c = ([], .error (.exception "Max retries exceeded")) := by
  rw [retryWrapperLoop]
  simp [hc]

/-- Running the retry loop through `k` consecutive 429 responses records
their `Retry-After` sleeps (default 2) and continues from counter
`c + k`. -/
theorem retryWrapperLoop_run_429 {α : Type} (op : Nat → Except PyExc α)
    (ra : Nat → Option Nat) :
    ∀ (k c : Nat), c + k ≤ 10 →
      (∀ j, j < k → op (c + j) = .error (.httpError 429 (ra (c + j)))) →
      retryWrapperLoop op c =
        (((List.range k).map fun j => (ra (c + j)).getD 2) ++ (retryWrapperLoop op (c + k)).1,
         (retryWrapperLoop op (c + k)).2) := by
  intro k
  induction k with
  | zero => intro c _ _; simp
  | succ k ih =>
      intro c hck h429
      have hc : c < 10 := by omega
      have hop : op c = .error (.httpError 429 (ra c)) := by
        have := h429 0 (by omega)
        simpa using this
      rw [retryWrapperLoop_429 hc hop]
      have ihc := ih (c + 1) (by omega) (fun j hj => by
        have := h429 (j + 1) (by omega)
        simpa [Nat.add_assoc, Nat.add_comm 1 j] using this)
      rw [ihc]
      have h1 : c + (k + 1) = c + 1 + k := by omega
      rw [h1]
      have h3 : (fun j => (ra (c + 1 + j)).getD 2) =
          ((fun j => (ra (c + j)).getD 2) ∘ Nat.succ) := by
        funext j
        simp only [Function.comp_apply, Nat.succ_eq_add_one]
        congr 2
        omega
      simp only [List.range_succ_eq_map, List.map_cons, List.map_map, List.cons_append,
        Nat.add_zero, h3]

/-! ## Claims -/

/-- **C1 (code bug).** The claim says `retry_wrapper` returns the
successful invocation's result to the caller.  The code calls
`request_func` and `break`s without keeping the return value, so the
wrapper returns Python `None` — here evaluated on an operation that
succeeds immediately with `42` and on one that succeeds after a single
429: both runs end in `.ok none`, never `.ok (some 42)`, contradicting
the `cast(F, wrapper)` type assertion and the claim. -/
theorem retry_wrapper_returns_none :
    retry_wrapper (fun _ => Except.ok (42 : Nat)) = ([], Except.ok none) ∧
    retry_wrapper (fun k =>
        if k = 0 then Except.error (PyExc.httpError 429 (some 5)) else Except.ok (42 : Nat)) =
      ([5], Except.ok none) ∧
    ((Except.ok none : Except PyExc (Option Nat)) ≠ Except.ok (some 42)) := by
  refine ⟨?_, ?_, by simp⟩
  · exact retryWrapperLoop_ok (by omega) rfl
  · show retryWrapperLoop _ 0 = ([5], Except.ok none)
    rw [retryWrapperLoop_429 (by omega) rfl]
    have h2 : retryWrapperLoop
        (fun k => if k = 0 then Except.error (PyExc.httpError 429 (some 5)) else Except.ok (42 : Nat))
        (0 + 1) = ([], Except.ok none) := retryWrapperLoop_ok (by omega) rfl
    rw [h2]
    simp

/-- **C2 (code bug).** The undecorated body of `put_ship_confirmation`
behaves as the claim says: success yields `CONFIRMED`, a rejection whose
message contains `"Current status is"` yields `PREVIOUSLY_CONFIRMED`,
and any other failure propagates the transport error.  But the method
callers invoke is wrapped by `retry_wrapper`, which discards the body's
return value, so on a successful response the call actually returns
Python `None` rather than `CONFIRMED`, contradicting the method's
declared return type. -/
theorem put_ship_confirmation_spec :
    put_ship_confirmation_body ⟨200, none, none⟩ =
      .ok ShippingConfirmationResult.CONFIRMED ∧
    put_ship_confirmation_body
        ⟨400, none, some "Cannot perform the operation. Current status is SHIPPING."⟩ =
      .ok ShippingConfirmationResult.PREVIOUSLY_CONFIRMED ∧
    put_ship_confirmation_body ⟨500, none, some "internal error"⟩ =
      .error (.httpError 500 none) ∧
    put_ship_confirmation (fun _ => ⟨200, none, none⟩) = ([], Except.ok none) ∧
    ((Except.ok none : Except PyExc (Option ShippingConfirmationResult)) ≠
      Except.ok (some ShippingConfirmationResult.CONFIRMED)) := by
  refine ⟨rfl, rfl, rfl, retryWrapperLoop_ok (by omega) rfl, by simp⟩

/-- **C5.** The retrying executor retries only on 429 failures, sleeping
for the `Retry-After` value (default 2) before each retry; a non-429
failure propagates immediately (after only the sleeps of the earlier 429
retries); and 10 attempts all failing with 429 exhaust the retry budget
and raise `Exception("Max retries exceeded")`, with all 10 sleeps
recorded. -/
theorem retry_wrapper_retry_policy :
    ∀ {α : Type} (op : Nat → Except PyExc α) (ra : Nat → Option Nat),
      ((∀ j, j < 10 → op j = .error (.httpError 429 (ra j))) →
        retry_wrapper op =
          ((List.range 10).map (fun j => (ra j).getD 2),
           .error (.exception "Max retries exceeded"))) ∧
      (∀ k s r, k < 10 → (∀ j, j < k → op j = .error (.httpError 429 (ra j))) →
        op k = .error (.httpError s r) → s ≠ 429 →
        retry_wrapper op =
          ((List.range k).map (fun j => (ra j).getD 2), .error (.httpError s r))) := by
  intro α op ra
  constructor
  · intro h429
    have := retryWrapperLoop_run_429 op ra 10 0 (by omega)
      (fun j hj => by simpa using h429 j hj)
    rw [retry_wrapper, this, retryWrapperLoop_exhausted (by omega)]
    simp
  · intro k s r hk h429 hop hs
    have := retryWrapperLoop_run_429 op ra k 0 (by omega)
      (fun j hj => by simpa using h429 j hj)
    rw [retry_wrapper, this, retryWrapperLoop_non429 (by omega) (by simpa using hop) hs]
    simp

/-- Witness for C5: an operation failing with 429 (`Retry-After: 3`) on
all ten attempts exhausts the budget. -/
theorem retry_wrapper_retry_policy_witness :
    (∀ j, j < 10 →
      (fun _ : Nat => (Except.error (PyExc.httpError 429 (some 3)) : Except PyExc Nat)) j =
        Except.error (PyExc.httpError 429 ((fun _ : Nat => some 3) j))) ∧
    retry_wrapper (fun _ : Nat => (Except.error (PyExc.httpError 429 (some 3)) : Except PyExc Nat)) =
      ((List.range 10).map (fun j => ((fun _ : Nat => some 3) j).getD 2),
       Except.error (PyExc.exception "Max retries exceeded")) :=
  ⟨fun _ _ => rfl,
   (retry_wrapper_retry_policy
      (fun _ => (Except.error (PyExc.httpError 429 (some 3)) : Except PyExc Nat))
      (fun _ => some 3)).1 (fun _ _ => rfl)⟩

/-- The loop of `get_all_offers` stops as soon as the offset is not
below the total count. -/
theorem getAllOffersLoop_stop {α : Type} {fetch : Nat → Nat → OF21Page α} {t c : Nat}
    (h : ¬ c < t) : getAllOffersLoop fetch t c = ([], []) := by
  rw [getAllOffersLoop]
  simp [h]

/-- One iteration of the `get_all_offers` loop: advance the offset by
100, fetch there, keep looping. -/
theorem getAllOffersLoop_step {α : Type} {fetch : Nat → Nat → OF21Page α} {t c : Nat}
    (h : c < t) :
    getAllOffersLoop fetch t c =
      ((c + 100, 100) :: (getAllOffersLoop fetch t (c + 100)).1,
       (fetch (c + 100) 100).offers ++ (getAllOffersLoop fetch t (c + 100)).2) := by
  rw [getAllOffersLoop]
  simp [h]

/-- The request trace of the `get_all_offers` loop does not depend on
the fetched pages at all, only on the total count. -/
theorem getAllOffersLoop_requests {α : Type} (f g : Nat → Nat → OF21Page α) (t : Nat) :
    ∀ n c, t ≤ c + n → (getAllOffersLoop f t c).1 = (getAllOffersLoop g t c).1 := by
  intro n
  induction n with
  | zero =>
      intro c hc
      rw [getAllOffersLoop_stop (by omega), getAllOffersLoop_stop (by omega)]
  | succ n ih =>
      intro c hc
      by_cases h : c < t
      · rw [getAllOffersLoop_step h, getAllOffersLoop_step h]
        simp only [List.cons.injEq, true_and]
        exact ih (c + 100) (by omega)
      · rw [getAllOffersLoop_stop h, getAllOffersLoop_stop h]

/-- A synthetic paged source of 250 items (the numbers 0..249): each
request returns the `limit`-sized slice at `offset` and reports
`total_count = 250`. -/
def syntheticSource : Nat → Nat → OF21Page Nat :=
  fun offset limit => ⟨((List.range 250).drop offset).take limit, 250⟩

/-- **C3 counterexample.** Over the synthetic 250-item source with page
size 100, `get_all_offers` issues four page requests — offsets 0, 100,
200 and 300 — not three: after fetching at offset 200 the loop guard
compares 200 < 250 and fetches once more at offset 300. -/
theorem get_all_offers_not_three_requests :
    (get_all_offers syntheticSource).1 = [(0, 100), (100, 100), (200, 100), (300, 100)] ∧
    (get_all_offers syntheticSource).1 ≠ [(0, 100), (100, 100), (200, 100)] := by
  have h : (get_all_offers syntheticSource).1 =
      [(0, 100), (100, 100), (200, 100), (300, 100)] := by
    show ((0, 100) :: (getAllOffersLoop syntheticSource 250 0).1, _).1 = _
    rw [getAllOffersLoop_step (by omega), getAllOffersLoop_step (by omega),
      getAllOffersLoop_step (by omega), getAllOffersLoop_stop (by omega)]
  refine ⟨h, ?_⟩
  rw [h]
  simp

set_option maxRecDepth 10000 in
/-- **C3 (amended).** Over a paged source whose first page reports a
total count of 250, with the fixed page size 100, `get_all_offers`
issues exactly 4 page requests, at offsets 0, 100, 200 and 300 (the
last page lies past the end and is empty), and returns all 250 items
concatenated in page order; the total count — and hence the request
trace — is read only from the first page. -/
theorem get_all_offers_four_requests :
    (get_all_offers syntheticSource).1 = [(0, 100), (100, 100), (200, 100), (300, 100)] ∧
    (get_all_offers syntheticSource).2 = List.range 250 ∧
    ∀ f g : Nat → Nat → OF21Page Nat,
      (f 0 100).total_count = (g 0 100).total_count →
      (get_all_offers f).1 = (get_all_offers g).1 := by
  refine ⟨?_, ?_, ?_⟩
  · show ((0, 100) :: (getAllOffersLoop syntheticSource 250 0).1, _).1 = _
    rw [getAllOffersLoop_step (by omega), getAllOffersLoop_step (by omega),
      getAllOffersLoop_step (by omega), getAllOffersLoop_stop (by omega)]
  · show (((0, 100) :: (getAllOffersLoop syntheticSource 250 0).1,
        (syntheticSource 0 100).offers ++ (getAllOffersLoop syntheticSource 250 0).2)).2 = _
    rw [getAllOffersLoop_step (by omega), getAllOffersLoop_step (by omega),
      getAllOffersLoop_step (by omega), getAllOffersLoop_stop (by omega)]
    decide
  · intro f g h
    show ((0, 100) :: (getAllOffersLoop f (f 0 100).total_count 0).1 : List (Nat × Nat)) =
      (0, 100) :: (getAllOffersLoop g (g 0 100).total_count 0).1
    rw [h]
    exact congrArg ((0, 100) :: ·)
      (getAllOffersLoop_requests f g ((g 0 100).total_count) ((g 0 100).total_count) 0
        (by omega))

/-- Witness for C3's amended claim: a source returning no items but the
same first-page total count of 250 produces the same request trace as
the synthetic 250-item source. -/
theorem get_all_offers_four_requests_witness :
    (syntheticSource 0 100).total_count =
      ((fun _ _ => (⟨[], 250⟩ : OF21Page Nat)) 0 100).total_count ∧
    (get_all_offers syntheticSource).1 =
      (get_all_offers (fun _ _ => (⟨[], 250⟩ : OF21Page Nat))).1 :=
  ⟨rfl, get_all_offers_four_requests.2.2 syntheticSource (fun _ _ => ⟨[], 250⟩) rfl⟩

/-- **C6.** For every non-negative price already rounded to 2 fractional
digits (`x * 100` is an integer `n`), `round_up_to_nearest_nine` returns
a value ≥ its input whose cents digit is 9, reached by adding the
forward distance `(9 - n % 10)` cents; in particular it maps `10.00` to
`10.09` and `10.91` to `10.99`. -/
theorem round_up_to_nearest_nine_spec :
    (∀ (x : ℚ) (n : ℤ), 0 ≤ x → x * 100 = (n : ℚ) →
      x ≤ round_up_to_nearest_nine x ∧
      round_up_to_nearest_nine x = x + ((9 - n % 10 : ℤ) : ℚ) / 100 ∧
      ∃ k : ℤ, round_up_to_nearest_nine x * 100 = (k : ℚ) ∧ k % 10 = 9) ∧
    round_up_to_nearest_nine 10 = 1009 / 100 ∧
    round_up_to_nearest_nine (1091 / 100) = 1099 / 100 := by
  have key : ∀ (x : ℚ) (n : ℤ), 0 ≤ x → x * 100 = (n : ℚ) →
      round_up_to_nearest_nine x = ((n + (9 - n % 10) : ℤ) : ℚ) / 100 ∧ x = (n : ℚ) / 100 := by
    intro x n hx hxn
    obtain ⟨hx100, hn⟩ := cents_repr hx hxn
    exact ⟨by rw [hx100, round_up_on_cents n hn], hx100⟩
  refine ⟨?_, ?_, ?_⟩
  · intro x n hx hxn
    obtain ⟨hres, hxeq⟩ := key x n hx hxn
    refine ⟨?_, ?_, ⟨n + (9 - n % 10), ?_, by omega⟩⟩
    · rw [hres, hxeq]
      have h1 : (n : ℚ) ≤ ((n + (9 - n % 10) : ℤ) : ℚ) := by
        exact_mod_cast (by omega : n ≤ n + (9 - n % 10))
      have h2 : (n : ℚ) / 100 ≤ ((n + (9 - n % 10) : ℤ) : ℚ) / 100 := by gcongr
      exact h2
    · rw [hres, hxeq]; push_cast; ring
    · rw [hres]; push_cast; ring
  · have := (key 10 1000 (by norm_num) (by norm_num)).1
    rw [this]; norm_num
  · have := (key (1091/100) 1091 (by norm_num) (by norm_num)).1
    rw [this]; norm_num

/-- Witness for C6: the hypotheses hold and the conclusion evaluates at
`x = 10`, `n = 1000`. -/
theorem round_up_to_nearest_nine_spec_witness :
    (0 : ℚ) ≤ 10 ∧ (10 : ℚ) * 100 = ((1000 : ℤ) : ℚ) ∧
    ((10 : ℚ) ≤ round_up_to_nearest_nine 10 ∧
     round_up_to_nearest_nine 10 = 10 + ((9 - (1000 : ℤ) % 10 : ℤ) : ℚ) / 100 ∧
     ∃ k : ℤ, round_up_to_nearest_nine 10 * 100 = (k : ℚ) ∧ k % 10 = 9) :=
  ⟨by norm_num, by norm_num,
    round_up_to_nearest_nine_spec.1 10 1000 (by norm_num) (by norm_num)⟩

/-- **C7.** The price normalizer is idempotent on already-charmed
prices: for every non-negative `x` with integer cents `n` and cents
digit 9, `round_up_to_nearest_nine x = x`, hence applying it twice
equals applying it once; in particular `10.09` maps to itself. -/
theorem round_up_to_nearest_nine_idempotent :
    (∀ (x : ℚ) (n : ℤ), 0 ≤ x → x * 100 = (n : ℚ) → n % 10 = 9 →
      round_up_to_nearest_nine x = x ∧
      round_up_to_nearest_nine (round_up_to_nearest_nine x) = round_up_to_nearest_nine x) ∧
    round_up_to_nearest_nine (1009 / 100) = 1009 / 100 := by
  have fix : ∀ (x : ℚ) (n : ℤ), 0 ≤ x → x * 100 = (n : ℚ) → n % 10 = 9 →
      round_up_to_nearest_nine x = x := by
    intro x n hx hxn h9
    obtain ⟨hx100, hn⟩ := cents_repr hx hxn
    rw [hx100, round_up_on_cents n hn, h9]
    norm_num
  refine ⟨fun x n hx hxn h9 => ?_, ?_⟩
  · have h1 := fix x n hx hxn h9
    exact ⟨h1, by rw [h1, h1]⟩
  · exact fix (1009/100) 1009 (by norm_num) (by norm_num) (by norm_num)

/-- Witness for C7: the hypotheses hold and the conclusion evaluates at
`x = 10.09`, `n = 1009`. -/
theorem round_up_to_nearest_nine_idempotent_witness :
    (0 : ℚ) ≤ 1009 / 100 ∧ (1009 / 100 : ℚ) * 100 = ((1009 : ℤ) : ℚ) ∧
    (1009 : ℤ) % 10 = 9 ∧
    (round_up_to_nearest_nine (1009 / 100) = 1009 / 100 ∧
     round_up_to_nearest_nine (round_up_to_nearest_nine (1009 / 100)) =
       round_up_to_nearest_nine (1009 / 100)) :=
  ⟨by norm_num, by norm_num, by norm_num,
    round_up_to_nearest_nine_idempotent.1 (1009 / 100) 1009
      (by norm_num) (by norm_num) (by norm_num)⟩

/-- **C4 (code bug).** The claim says the carrier-code shape (non-empty
code and tracking number, name and URL absent) is accepted.  In the
code, Python's precedence parses the guard as
`(code is None and name is None) or url is None`, so a body whose
`carrier_url` is `None` is always rejected — the carrier-code shape
raises the very `ValueError` whose message says it should not — for
every URL validator.  The name+URL shape behaves as described: accepted
with a URL the validator passes, rejected with `"Invalid carrier URL"`
otherwise. -/
theorem validate_for_mirakl_rejects_carrier_code_shape :
    (∀ url_ok : String → Bool,
      validate_for_mirakl url_ok
        { carrier_code := some "UPSN", tracking_number := "1Z999AA10123456784" } =
        .error (.valueError
          "If carrier code is not provided, the BOTH carrier name and carrier url must be provided")) ∧
    validate_for_mirakl (fun _ => true)
        { carrier_name := some "ups", carrier_url := some "https://example.com/track",
          tracking_number := "1Z9" } =
      .ok { carrier_name := some "ups", carrier_url := some "https://example.com/track",
            tracking_number := "1Z9" } ∧
    validate_for_mirakl (fun _ => false)
        { carrier_name := some "ups", carrier_url := some "not a url",
          tracking_number := "1Z9" } =
      .error (.valueError "Invalid carrier URL") :=
  ⟨fun _ => rfl, rfl, rfl⟩

/-- **C8.** `determine_carrier` returns the UPS identity exactly when
the tracking number starts with `"1Z"`, and raises `CarrierNotFound`
for every other tracking number, whatever the optional order-reference
argument is. -/
theorem determine_carrier_spec :
    ∀ (t : String) (o : Option String),
      (determine_carrier t o = .ok ShippingCarrier.UPS ↔ strStartsWith t "1Z" = true) ∧
      (strStartsWith t "1Z" = false → determine_carrier t o = .error PyExc.carrierNotFound) := by
  intro t o
  cases hb : strStartsWith t "1Z" <;> simp [determine_carrier, hb]

/-- Witness for C8: a UPS-shaped tracking number resolves to UPS and a
non-UPS one raises `CarrierNotFound`. -/
theorem determine_carrier_spec_witness :
    determine_carrier "1Z999AA10123456784" none = .ok ShippingCarrier.UPS ∧
    determine_carrier "XYZ123" none = .error PyExc.carrierNotFound :=
  ⟨(determine_carrier_spec "1Z999AA10123456784" none).1.mpr (by decide),
   (determine_carrier_spec "XYZ123" none).2 (by decide)⟩

/-- **C9.** `update_offers` builds one wire offer per input in order:
the base price goes through the price normalizer while a provided
discount price is passed through unchanged inside a `discount` object
whose start/end dates are included exactly when the input provides
them; no discount object is attached when no discount price is
provided; and the returned import id is the server's, or 0 when the
server response omits it. -/
theorem update_offers_spec :
    (∀ input : List OfferUpdateInput,
      List.Forall₂ (fun i o =>
        o.price = round_up_to_nearest_nine i.base_price ∧
        o.shop_sku = i.offer_sku ∧
        o.product_id = i.product_id ∧
        o.quantity = i.quantity ∧
        (i.discount_price = none → o.discount = none) ∧
        (∀ dp, i.discount_price = some dp →
          o.discount = some { price := some dp,
                              start_date := i.discount_start_date,
                              end_date := i.discount_end_date }))
        input (update_offers_request input)) ∧
    (∀ import_id : Option Int,
      (import_id = none → update_offers_result import_id = 0) ∧
      (∀ v, import_id = some v → update_offers_result import_id = v)) := by
  constructor
  · intro input
    simp only [update_offers_request, validate_all_offers]
    rw [List.forall₂_map_right_iff, List.forall₂_same]
    intro i _
    cases hd : i.discount_price <;> simp [buildOfferRequest, hd]
  · intro iid
    cases iid <;> simp [update_offers_result]

/-- Witness for C9: the import-id hypotheses are dischargeable — a
missing `import_id` yields 0 and a present one is returned as is. -/
theorem update_offers_spec_witness :
    update_offers_result none = 0 ∧ update_offers_result (some 7) = 7 :=
  ⟨(update_offers_spec.2 none).1 rfl, (update_offers_spec.2 (some 7)).2 7 rfl⟩

/-- **C10.** The default carrier resolver's outcome does not depend on
its second (order-reference) argument; the payload `put_tracking`
submits does not depend on the order id (only the request URL does);
and `put_tracking` consults its pluggable resolver only at
`(tracking_number, Some tracking_number)` — it passes the tracking
number itself, never the order id, as the second argument. -/
theorem put_tracking_carrier_independence :
    (∀ (t : String) (o₁ o₂ : Option String),
        determine_carrier t o₁ = determine_carrier t o₂) ∧
    (∀ (url_ok : String → Bool) (client : MiraklClient) (oid₁ oid₂ t : String)
        (c? : Option ShippingCarrier),
        (put_tracking_request url_ok client oid₁ t c?).map Prod.snd =
        (put_tracking_request url_ok client oid₂ t c?).map Prod.snd) ∧
    (∀ (url_ok : String → Bool) (client : MiraklClient)
        (f g : String → Option String → Except PyExc ShippingCarrier) (oid t : String),
        f t (some t) = g t (some t) →
        put_tracking_request url_ok { client with carrier_determination_func := f } oid t none =
        put_tracking_request url_ok { client with carrier_determination_func := g } oid t none) := by
  refine ⟨fun t o₁ o₂ => rfl, ?_, ?_⟩
  · intro url_ok client oid₁ oid₂ t c?
    have key : ∀ carrier : ShippingCarrier,
        Except.map Prod.snd
          (match put_tracking_payload url_ok client t carrier with
           | .error e => (.error e : Except PyExc (String × OR23RequestBody))
           | .ok p => .ok (client.base_url ++ "/api/orders/" ++ oid₁ ++ "/tracking", p)) =
        Except.map Prod.snd
          (match put_tracking_payload url_ok client t carrier with
           | .error e => (.error e : Except PyExc (String × OR23RequestBody))
           | .ok p => .ok (client.base_url ++ "/api/orders/" ++ oid₂ ++ "/tracking", p)) := by
      intro carrier
      cases put_tracking_payload url_ok client t carrier with
      | error e => rfl
      | ok p => rfl
    cases c? with
    | some c => exact key c
    | none =>
        show Except.map Prod.snd
            (match client.carrier_determination_func t (some t) with
             | .error e => (.error e : Except PyExc (String × OR23RequestBody))
             | .ok carrier =>
               match put_tracking_payload url_ok client t carrier with
               | .error e => .error e
               | .ok p => .ok (client.base_url ++ "/api/orders/" ++ oid₁ ++ "/tracking", p)) =
          Except.map Prod.snd
            (match client.carrier_determination_func t (some t) with
             | .error e => (.error e : Except PyExc (String × OR23RequestBody))
             | .ok carrier =>
               match put_tracking_payload url_ok client t carrier with
               | .error e => .error e
               | .ok p => .ok (client.base_url ++ "/api/orders/" ++ oid₂ ++ "/tracking", p))
        cases client.carrier_determination_func t (some t) with
        | error e => rfl
        | ok carrier => exact key carrier
  · intro url_ok client f g oid t h
    have hp : ∀ carrier,
        put_tracking_payload url_ok { client with carrier_determination_func := f } t carrier =
        put_tracking_payload url_ok { client with carrier_determination_func := g } t carrier :=
      fun _ => rfl
    show (match f t (some t) with
          | .error e => (.error e : Except PyExc (String × OR23RequestBody))
          | .ok carrier =>
            match put_tracking_payload url_ok
                { client with carrier_determination_func := f } t carrier with
            | .error e => .error e
            | .ok p => .ok (client.base_url ++ "/api/orders/" ++ oid ++ "/tracking", p)) =
         (match g t (some t) with
          | .error e => (.error e : Except PyExc (String × OR23RequestBody))
          | .ok carrier =>
            match put_tracking_payload url_ok
                { client with carrier_determination_func := g } t carrier with
            | .error e => .error e
            | .ok p => .ok (client.base_url ++ "/api/orders/" ++ oid ++ "/tracking", p))
    rw [h]
    simp only [hp]

/-- A small concrete client used to witness C10. -/
def testClient : MiraklClient where
  base_url := "https://api.example.com"
  carrier_configurations := fun _ => none
  tracking_url_generation_func := generate_custom_tracking_url
  carrier_determination_func := fun s o => determine_carrier s o

/-- Witness for C10: two carrier resolvers that agree at
`("1Z1", some "1Z1")` give `put_tracking` runs with identical
outcomes. -/
theorem put_tracking_carrier_independence_witness :
    (fun s o => determine_carrier s o) "1Z1" (some "1Z1") =
      (fun s (_ : Option String) => determine_carrier s none) "1Z1" (some "1Z1") ∧
    put_tracking_request (fun _ => true)
        { testClient with carrier_determination_func := fun s o => determine_carrier s o }
        "ord-1" "1Z1" none =
      put_tracking_request (fun _ => true)
        { testClient with
            carrier_determination_func := fun s _ => determine_carrier s none }
        "ord-1" "1Z1" none :=
  ⟨rfl,
   put_tracking_carrier_independence.2.2 (fun _ => true) testClient
     (fun s o => determine_carrier s o)
     (fun s _ => determine_carrier s none) "ord-1" "1Z1" rfl⟩

end MiraklLib
